import Mathlib

/-!
Verification of the intent-routing, numeric-extraction and financial-calculator
logic of `src/main.py` (class `ImprovedFinancialAgent`).

Numbers are modelled as exact rationals (`ℚ`); every numeric literal appearing
in the source is exactly representable.  The three `re.findall` patterns used by
`extrair_valores_numericos` are embedded as deterministic scanners over
`List Char`; for these particular patterns (optional literal prefixes, greedy
character-class runs whose classes are pairwise disjoint from what follows)
Python's backtracking search is equivalent to the deterministic greedy scan,
so the embedding is faithful.  Python's `float(...)` conversion of the
normalized match (which can raise `ValueError`, e.g. on the empty string) is
modelled by an `Option ℚ` parser, and the possibility of an exception escaping
`extrair_valores_numericos` is modelled by `Except String`.
-/

namespace Agente

/-- Python substring test `needle in hay` starting at the head: does `palheiro`
start with `agulha`? -/
def comecaCom : List Char → List Char → Bool
  | [], _ => true
  | _ :: _, [] => false
  | a :: as, b :: bs => a = b && comecaCom as bs

/-- Python substring test `agulha in palheiro` on char lists. -/
def contemSub (agulha : List Char) : List Char → Bool
  | [] => agulha.isEmpty
  | b :: bs => comecaCom agulha (b :: bs) || contemSub agulha bs

/-- Python substring test `sub in s` on strings. -/
def contem (s sub : String) : Bool := contemSub sub.data s.data

/-- Python `str.lower()`, as character-wise lowering.  `Char.toLower` only
lowers ASCII letters; every keyword the source compares against is already
lower case, and the non-ASCII letters occurring in them (`í`, `ê`) are
unaffected, so this matches the source on the inputs considered here. -/
def paraMinusculas (s : String) : String := String.mk (s.data.map Char.toLower)

/-- Python `str.strip()`: remove leading and trailing whitespace. -/
def tiraEspacos (s : String) : String :=
  String.mk (((s.data.dropWhile (fun c => c.isWhitespace)).reverse.dropWhile
    (fun c => c.isWhitespace)).reverse)

/-- Character class `[\d.,]` of the monetary and percentage patterns. -/
def simboloNum (c : Char) : Bool := c.isDigit || c = '.' || c = ','

/-- Matcher for `R?\$?\s*([\d.,]+)` anchored at the head of the list
(src/main.py line 415).  Returns the captured group and the remainder after
the whole match.  The optional `R`, optional `$` and greedy `\s*` are
deterministic here because none of those characters belongs to `[\d.,]`. -/
def casaMonetario (l : List Char) : Option (List Char × List Char) :=
  let l1 := match l with
    | 'R' :: t => t
    | _ => l
  let l2 := match l1 with
    | '$' :: t => t
    | _ => l1
  let l3 := l2.dropWhile (fun c => c.isWhitespace)
  match l3.span simboloNum with
  | ([], _) => none
  | (g, resto) => some (g, resto)

/-- Matcher for `([\d.,]+)\s*%` anchored at the head (src/main.py line 421). -/
def casaPercentual (l : List Char) : Option (List Char × List Char) :=
  match l.span simboloNum with
  | ([], _) => none
  | (g, r) =>
    match r.dropWhile (fun c => c.isWhitespace) with
    | '%' :: resto => some (g, resto)
    | _ => none

/-- Case-insensitive literal word match: consumes `palavra` (given in lower
case) from the head of the text, comparing lowered characters. -/
def tiraPalavraCI : List Char → List Char → Option (List Char)
  | [], resto => some resto
  | _ :: _, [] => none
  | p :: ps, c :: cs => if c.toLower = p then tiraPalavraCI ps cs else none

/-- Consume an optional trailing `s`/`S` (the `s?` of the unit words). -/
def tiraSOpcional : List Char → List Char
  | 's' :: t => t
  | 'S' :: t => t
  | l => l

/-- Matcher for `(\d+)\s*(?:anos?|meses?|dias?)` with `re.IGNORECASE`,
anchored at the head (src/main.py line 427). -/
def casaPeriodo (l : List Char) : Option (List Char × List Char) :=
  match l.span (fun c => c.isDigit) with
  | ([], _) => none
  | (g, r) =>
    let r2 := r.dropWhile (fun c => c.isWhitespace)
    match (tiraPalavraCI "ano".data r2 <|> tiraPalavraCI "mese".data r2 <|>
        tiraPalavraCI "dia".data r2) with
    | some resto => some (g, tiraSOpcional resto)
    | none => none

/-- Matcher for `\d+` anchored at the head (used by src/main.py line 517). -/
def casaDigitos (l : List Char) : Option (List Char × List Char) :=
  match l.span (fun c => c.isDigit) with
  | ([], _) => none
  | (g, resto) => some (g, resto)

/-- `re.findall` driver: scan left to right; on a match emit the captured
group and resume after the match, otherwise advance one character.  The fuel
argument bounds the recursion; every matcher above consumes at least one
character on success, so fuel `length + 1` never runs out. -/
def acheTodos (casa : List Char → Option (List Char × List Char)) :
    Nat → List Char → List (List Char)
  | 0, _ => []
  | _ + 1, [] => []
  | n + 1, c :: cauda =>
    match casa (c :: cauda) with
    | some (g, resto) => g :: acheTodos casa n resto
    | none => acheTodos casa n cauda

/-- `re.findall(r'R?\$?\s*([\d.,]+)', texto)`. -/
def reMonetarios (t : List Char) : List (List Char) :=
  acheTodos casaMonetario (t.length + 1) t

/-- `re.findall(r'([\d.,]+)\s*%', texto)`. -/
def rePercentuais (t : List Char) : List (List Char) :=
  acheTodos casaPercentual (t.length + 1) t

/-- `re.findall(r'(\d+)\s*(?:anos?|meses?|dias?)', texto, re.IGNORECASE)`. -/
def rePeriodos (t : List Char) : List (List Char) :=
  acheTodos casaPeriodo (t.length + 1) t

/-- `re.findall(r'\d+', texto)`. -/
def reDigitos (t : List Char) : List (List Char) :=
  acheTodos casaDigitos (t.length + 1) t

/-- `re.findall(r'[\d.,]+', texto)` (src/main.py line 519). -/
def reSimbolosNum (t : List Char) : List (List Char) :=
  acheTodos (fun l => match l.span simboloNum with
    | ([], _) => none
    | (g, resto) => some (g, resto)) (t.length + 1) t

/-- `.replace('.', '').replace(',', '.')` — monetary normalization:
strip thousands dots, then turn the decimal comma into a point. -/
def normMonetario (g : List Char) : List Char :=
  (g.filter (fun c => c ≠ '.')).map (fun c => if c = ',' then '.' else c)

/-- `.replace(',', '.')` — percentage normalization. -/
def normPercentual (g : List Char) : List Char :=
  g.map (fun c => if c = ',' then '.' else c)

/-- Digit run to a natural number. -/
def natDe (l : List Char) : Nat :=
  l.foldl (fun n c => 10 * n + (c.toNat - '0'.toNat)) 0

/-- Python `float(s)` restricted to the strings that can reach it here
(digits and points): defined iff `s` has at most one point, at least one
digit, and nothing else.  `float('')`, `float('.')`, `float('1.2.3')` all
raise `ValueError` in Python, modelled as `none`. -/
def floatDe (l : List Char) : Option ℚ :=
  if l.all (fun c => c.isDigit || c = '.') then
    match l.splitOn '.' with
    | [a] => if a.isEmpty then none else some (natDe a)
    | [a, b] =>
      if a.isEmpty && b.isEmpty then none
      else some ((natDe a : ℚ) + (natDe b : ℚ) / (10 : ℚ) ^ b.length)
    | _ => none
  else none

/-- The mapping built by `extrair_valores_numericos` (src/main.py 410–431):
optional fields, populated in alias pairs.  Absence (`none`) models the key
not being present in the Python dict.  `periodo` is a natural number since
every value reaching it comes from the `(\d+)` group. -/
structure Valores where
  principal : Option ℚ
  valor : Option ℚ
  taxa : Option ℚ
  percentual : Option ℚ
  periodo : Option Nat
deriving DecidableEq, Repr

/-- `ImprovedFinancialAgent.extrair_valores_numericos` (src/main.py 410–431).
An `Except.error` models a `ValueError` escaping the function (which happens
when `float` is applied to a match that normalizes to an invalid literal). -/
def extrair_valores_numericos (texto : String) : Except String Valores := do
  let t := texto.data
  let pv : Option ℚ ←
    match reMonetarios t with
    | [] => Except.ok none
    | g :: _ =>
      match floatDe (normMonetario g) with
      | some q => Except.ok (some q)
      | none => Except.error "ValueError: could not convert string to float"
  let tx : Option ℚ ←
    match rePercentuais t with
    | [] => Except.ok none
    | g :: _ =>
      match floatDe (normPercentual g) with
      | some q => Except.ok (some q)
      | none => Except.error "ValueError: could not convert string to float"
  let pd : Option Nat :=
    match rePeriodos t with
    | [] => none
    | g :: _ => some (natDe g)
  Except.ok { principal := pv, valor := pv, taxa := tx, percentual := tx, periodo := pd }

/-- The final line of the income-tax report (src/main.py 160–164): either the
exempt marker (when the tax due is zero) or the effective-rate line. -/
inductive LinhaFinal where
  | isento
  | aliquotaEfetiva (percentual : ℚ)
deriving DecidableEq, Repr

/-- The content of the income-tax report built at src/main.py 148–164. -/
structure IRRelatorio where
  rendimento : ℚ
  faixaNome : String
  aliquota : ℚ
  deducao : ℚ
  impostoDevido : ℚ
  rendaLiquida : ℚ
  linhaFinal : LinhaFinal
deriving DecidableEq, Repr

/-- Outcome of `imposto_renda_melhorado`: a validation-error string, a report,
or `nenhuma` modelling Python's implicit `None` should the bracket loop fall
through (unreachable, since both tables end with an unbounded bracket). -/
inductive IRSaida where
  | erro (msg : String)
  | relatorio (r : IRRelatorio)
  | nenhuma
deriving DecidableEq, Repr

/-- 2024 bracket table (src/main.py 126–132): (upper bound — `none` models
`float('inf')` —, rate, deduction, label). -/
def faixas2024 : List (Option ℚ × ℚ × ℚ × String) :=
  [(some 28559.70, 0, 0, "Isento"),
   (some 42253.25, 0.075, 2141.98, "7,5%"),
   (some 56717.56, 0.15, 5304.90, "15%"),
   (some 74414.84, 0.225, 9756.12, "22,5%"),
   (none, 0.275, 14067.51, "27,5%")]

/-- Simplified table for years other than 2024 (src/main.py 135–141). -/
def faixasOutros : List (Option ℚ × ℚ × ℚ × String) :=
  [(some 28000, 0, 0, "Isento"),
   (some 42000, 0.075, 2100, "7,5%"),
   (some 56000, 0.15, 5300, "15%"),
   (some 74000, 0.225, 9700, "22,5%"),
   (none, 0.275, 14000, "27,5%")]

/-- `rendimento <= limite`, where `none` is `float('inf')`. -/
def dentroLimite (rendimento : ℚ) : Option ℚ → Bool
  | none => true
  | some lim => rendimento ≤ lim

/-- The bracket loop of src/main.py 143–166: first bracket whose bound is at
least the income wins; its report is built and returned. -/
def calculaFaixa (rendimento : ℚ) : List (Option ℚ × ℚ × ℚ × String) → IRSaida
  | [] => .nenhuma
  | (limite, aliquota, deducao, nome) :: resto =>
    if dentroLimite rendimento limite then
      let impostoBruto := rendimento * aliquota
      let impostoDevido := max 0 (impostoBruto - deducao)
      .relatorio
        { rendimento := rendimento
          faixaNome := nome
          aliquota := aliquota
          deducao := deducao
          impostoDevido := impostoDevido
          rendaLiquida := rendimento - impostoDevido
          linhaFinal :=
            if impostoDevido = 0 then .isento
            else .aliquotaEfetiva ((impostoDevido / rendimento) * 100) }
    else calculaFaixa rendimento resto

/-- `ImprovedFinancialAgent.imposto_renda_melhorado` (src/main.py 118–169).
The source's default argument is `ano = 2024`; call sites in this file pass it
explicitly. -/
def imposto_renda_melhorado (rendimento : ℚ) (ano : Int) : IRSaida :=
  if rendimento < 0 then .erro "❌ Rendimento não pode ser negativo."
  else calculaFaixa rendimento (if ano = 2024 then faixas2024 else faixasOutros)

/-- Outcome of `calculadora_financeira_geral`: a rejection/unsupported-type
message or one of the three structured reports (src/main.py 171–236).  Each
report constructor carries the quantities displayed by the corresponding
formatted string. -/
inductive CalcSaida where
  | erro (msg : String)
  | porcentagem (valor percentual resultado : ℚ)
  | jurosCompostos (principal taxa : ℚ) (periodo : Nat) (montante juros rendimento : ℚ)
  | jurosSimples (principal taxa : ℚ) (periodo : Nat) (juros montante : ℚ)
deriving DecidableEq, Repr

/-- `ImprovedFinancialAgent.calculadora_financeira_geral` (src/main.py
171–236).  `Valores` doubles as the `**kwargs` dict: `kwargs.get(chave, 0)`
is `Option.getD _ 0`.  `periodo` is a natural number (see `Valores`), so the
source's `periodo <= 0` is `periodo = 0` here. -/
def calculadora_financeira_geral (tipo : String) (kwargs : Valores) : CalcSaida :=
  if paraMinusculas tipo = "porcentagem" then
    let valor := kwargs.valor.getD 0
    let percentual := kwargs.percentual.getD 0
    if valor ≤ 0 ∨ percentual ≤ 0 then
      .erro "❌ Valores devem ser positivos para cálculo de porcentagem"
    else .porcentagem valor percentual (valor * (percentual / 100))
  else if paraMinusculas tipo = "juros_compostos" then
    let principal := kwargs.principal.getD 0
    let taxa := kwargs.taxa.getD 0 / 100
    let periodo := kwargs.periodo.getD 0
    if principal ≤ 0 ∨ taxa ≤ 0 ∨ periodo = 0 then
      .erro "❌ Valores devem ser positivos para juros compostos"
    else
      let montante := principal * (1 + taxa) ^ periodo
      .jurosCompostos principal taxa periodo montante (montante - principal)
        ((montante / principal - 1) * 100)
  else if paraMinusculas tipo = "juros_simples" then
    let principal := kwargs.principal.getD 0
    let taxa := kwargs.taxa.getD 0 / 100
    let periodo := kwargs.periodo.getD 0
    let juros := principal * taxa * periodo
    .jurosSimples principal taxa periodo juros (principal + juros)
  else .erro ("❌ Tipo '" ++ tipo ++ "' não suportado. Use: juros_compostos, juros_simples")

/-- The six outcomes of the fallback decision chain of `chat`
(src/main.py 464–539). -/
inductive Intencao where
  | imposto
  | porcentagem
  | jurosCompostos
  | buscaCientifica
  | porcentagemIncompleta
  | geral
deriving DecidableEq, Repr

/-- Rule 1, src/main.py 467: income-tax keywords in the lowered message. -/
def regraImposto (m : String) : Bool :=
  ["imposto de renda", "calcular ir", "ir de"].any (fun term => contem (paraMinusculas m) term)

/-- Rule 2, src/main.py 476: percentage-computation keywords. -/
def regraPorcentagem (m : String) : Bool :=
  ["% de", "porcent", "percentual de"].any (fun term => contem (paraMinusculas m) term)

/-- Rule 3, src/main.py 494: compound-interest keywords. -/
def regraJuros (m : String) : Bool :=
  ["juros compostos", "compound interest", "montante"].any (fun term => contem (paraMinusculas m) term)

/-- Rule 4, src/main.py 510: academic-search keywords. -/
def regraBusca (m : String) : Bool :=
  ["artigos científicos", "papers", "arxiv", "pesquisa acadêmica"].any
    (fun term => contem (paraMinusculas m) term)

/-- Rule 5, src/main.py 517: the lowered message mentions "porcentagem" and
`any(num in message for num in re.findall(r'\d+', message))` — each `num` is
itself a substring of the message, so this is "the message contains a digit",
written here exactly as the source computes it. -/
def regraIncompleta (m : String) : Bool :=
  contem (paraMinusculas m) "porcentagem" &&
    (reDigitos m.data).any (fun num => contemSub num m.data)

/-- The ordered if/elif decision chain of src/main.py 467–539, first match
wins; the final `else` is the general-knowledge branch. -/
def classifica (m : String) : Intencao :=
  if regraImposto m then .imposto
  else if regraPorcentagem m then .porcentagem
  else if regraJuros m then .jurosCompostos
  else if regraBusca m then .buscaCientifica
  else if regraIncompleta m then .porcentagemIncompleta
  else .geral

/-- Python truthiness of `valores.get(chave)`: `None` and `0.0` are falsy. -/
def verdadeiro : Option ℚ → Bool
  | none => false
  | some q => decide (q ≠ 0)

/-- Outcome of a `chat` fallback run (src/main.py 461–565), one constructor
per returned shape.  `erroCritico` models an exception (a `ValueError` from
the extractor) reaching the outermost handler at src/main.py 567–571;
`nenhuma` models the implicit `None` of the unreachable empty-`numeros` path
of rule 5; `buscaAcademica` and `geral` delegate to external collaborators. -/
inductive ChatSaida where
  | react (s : String)
  | ir (s : IRSaida)
  | irPrompt
  | calc (s : CalcSaida)
  | porcentagemPrompt
  | jurosPrompt
  | buscaAcademica
  | incompleta (valor : String)
  | geral
  | erroCritico (msg : String)
  | nenhuma
deriving DecidableEq, Repr

/-- The income-tax dispatch given extracted values (src/main.py 470–473):
truthiness gate, then the calculator on `valores['principal']` with the
default year. -/
def despachoIR (v : Valores) : ChatSaida :=
  if verdadeiro v.principal then .ir (imposto_renda_melhorado (v.principal.getD 0) 2024)
  else .irPrompt

/-- The percentage dispatch given extracted values (src/main.py 479–491). -/
def despachoPorcentagem (v : Valores) : ChatSaida :=
  if verdadeiro v.valor && verdadeiro v.percentual then
    .calc (calculadora_financeira_geral "porcentagem" v)
  else .porcentagemPrompt

/-- The compound-interest dispatch (src/main.py 497–507): presence is tested
by key membership (`all(k in valores for k in [...])`), not truthiness. -/
def despachoJurosCompostos (v : Valores) : ChatSaida :=
  if v.principal.isSome && v.taxa.isSome && v.periodo.isSome then
    .calc (calculadora_financeira_geral "juros_compostos" v)
  else .jurosPrompt

/-- Body of each branch of the fallback chain (src/main.py 467–539).  The
branches that re-invoke the extractor propagate its `ValueError` to the
outermost handler (`erroCritico`). -/
def despacho : Intencao → String → ChatSaida
  | .imposto, m =>
    match extrair_valores_numericos m with
    | .error e => .erroCritico e
    | .ok v => despachoIR v
  | .porcentagem, m =>
    match extrair_valores_numericos m with
    | .error e => .erroCritico e
    | .ok v => despachoPorcentagem v
  | .jurosCompostos, m =>
    match extrair_valores_numericos m with
    | .error e => .erroCritico e
    | .ok v => despachoJurosCompostos v
  | .buscaCientifica, _ => .buscaAcademica
  | .porcentagemIncompleta, m =>
    match reSimbolosNum m.data with
    | [] => .nenhuma
    | g :: _ => .incompleta (String.mk (normMonetario g))
  | .geral, _ => .geral

/-- The manual fallback analysis of `chat` (src/main.py 461–565): classify,
then dispatch. -/
def chatFallback (m : String) : ChatSaida := despacho (classifica m) m

/-- The quality gate of src/main.py 452: non-empty, length above 20, and no
case-insensitive failure-indicator substring. -/
def portaoQualidade (result : String) : Bool :=
  (result ≠ "") && (result.length > 20) &&
    !(["error", "erro", "failed", "none"].any (fun erro => contem (paraMinusculas result) erro))

/-- `chat` (src/main.py 433–571) with the reasoning-loop collaborator made
explicit: `some resp` is the text the ReAct agent returned, `none` an
exception it raised.  The source applies `str(...).strip()` before the
quality gate; an accepted result is returned as-is, anything else falls
through to the manual analysis. -/
def chat (respostaReAct : Option String) (message : String) : ChatSaida :=
  match respostaReAct with
  | some resp =>
    let result := tiraEspacos resp
    if portaoQualidade result then .react result else chatFallback message
  | none => chatFallback message

/-- What the report for a selected bracket must contain, per the spec (§8):
tax is `max 0 (income*rate − deduction)`, net income is income minus that,
and the final line is the exempt marker exactly when the tax is zero,
otherwise the effective-rate line `(tax / income) * 100`. -/
def RelatorioFaixa (r aliquota deducao : ℚ) (nome : String) (s : IRSaida) : Prop :=
  s = .relatorio
    { rendimento := r
      faixaNome := nome
      aliquota := aliquota
      deducao := deducao
      impostoDevido := max 0 (r * aliquota - deducao)
      rendaLiquida := r - max 0 (r * aliquota - deducao)
      linhaFinal :=
        if max 0 (r * aliquota - deducao) = 0 then .isento
        else .aliquotaEfetiva ((max 0 (r * aliquota - deducao) / r) * 100) }

/-- C1: evaluation of the code at the message "Calcule 20% de R$ 5.000".  The
currency prefix of the monetary pattern is optional, so the first numeric
token "20" (from "20%") becomes the principal/value; the percentage path then
computes 20% of 20 = 4, not 20% of 5000 = 1000 as the spec's end-to-end
scenario states. -/
theorem c1_calcule_20_por_cento_de_5000 :
    extrair_valores_numericos "Calcule 20% de R$ 5.000" =
      Except.ok ⟨some 20, some 20, some 20, some 20, none⟩ ∧
    chatFallback "Calcule 20% de R$ 5.000" = .calc (.porcentagem 20 20 4) := by
  have he : extrair_valores_numericos "Calcule 20% de R$ 5.000" =
      Except.ok ⟨some 20, some 20, some 20, some 20, none⟩ := rfl
  refine ⟨he, ?_⟩
  have hc : classifica "Calcule 20% de R$ 5.000" = .porcentagem := rfl
  have hp : paraMinusculas "porcentagem" = "porcentagem" := rfl
  rw [chatFallback, hc]
  simp only [despacho, he]
  norm_num [despachoPorcentagem, verdadeiro, calculadora_financeira_geral, hp]

/-- C3: the extractor raises on the digit-free message "Olá.": the trailing
full stop matches `[\d.,]+`, `'.'.replace('.','')` is the empty string, and
`float('')` raises `ValueError` — the function does not return an empty
mapping. -/
theorem c3_extrator_levanta_excecao_em_ola :
    extrair_valores_numericos "Olá." =
      Except.error "ValueError: could not convert string to float" := rfl

/-- C4: the quality gate accepts a (stripped) reasoning-loop result exactly
when it is non-empty, longer than 20 characters, and its lowered text
contains none of "error", "erro", "failed", "none"; any result whose lowered
text contains "error" is rejected, and such a result makes `chat` fall
through to the manual fallback chain. -/
theorem c4_portao_qualidade_spec (result resp message : String) :
    (portaoQualidade result = true ↔
      (result ≠ "" ∧ result.length > 20 ∧
        ∀ e ∈ ["error", "erro", "failed", "none"],
          contem (paraMinusculas result) e = false)) ∧
    (contem (paraMinusculas result) "error" = true → portaoQualidade result = false) ∧
    (contem (paraMinusculas (tiraEspacos resp)) "error" = true →
      chat (some resp) message = chatFallback message) := by
  have rejeita : ∀ s : String, contem (paraMinusculas s) "error" = true →
      portaoQualidade s = false := by
    intro s h
    have hany : (["error", "erro", "failed", "none"].any
        (fun erro => contem (paraMinusculas s) erro)) = true := by
      refine List.any_eq_true.mpr ⟨"error", by simp, ?_⟩
      simpa using h
    simp [portaoQualidade, hany]
  refine ⟨?_, rejeita result, ?_⟩
  · constructor
    · intro h
      have h1 := h
      simp only [portaoQualidade, Bool.and_eq_true, Bool.not_eq_true',
        decide_eq_true_eq] at h1
      obtain ⟨⟨hne, hlen⟩, hany⟩ := h1
      refine ⟨hne, hlen, ?_⟩
      intro e he
      by_contra hcontra
      have : (["error", "erro", "failed", "none"].any
          (fun erro => contem (paraMinusculas result) erro)) = true :=
        List.any_eq_true.mpr ⟨e, he, by simpa using Bool.not_eq_false _ |>.mp hcontra⟩
      simp [this] at hany
    · rintro ⟨hne, hlen, hnada⟩
      have hany : (["error", "erro", "failed", "none"].any
          (fun erro => contem (paraMinusculas result) erro)) = false := by
        refine List.any_eq_false.mpr ?_
        intro e he
        simp [hnada e he]
      simp [portaoQualidade, hany, hne, hlen]
  · intro h
    have hg : portaoQualidade (tiraEspacos resp) = false := rejeita _ h
    simp [chat, hg]

/-- Witness for C4 at a result whose lowered text contains "error": it is
rejected by the gate and `chat` falls back to the manual analysis. -/
theorem c4_portao_qualidade_testemunha :
    contem (paraMinusculas "Unexpected ERROR while answering") "error" = true ∧
    portaoQualidade "Unexpected ERROR while answering" = false ∧
    chat (some "Unexpected ERROR while answering") "bom dia" = chatFallback "bom dia" :=
  ⟨rfl,
   (c4_portao_qualidade_spec "Unexpected ERROR while answering" "" "").2.1 rfl,
   (c4_portao_qualidade_spec "" "Unexpected ERROR while answering" "bom dia").2.2 rfl⟩

/-- C5: classification is the ordered first-match-wins chain
tax → percentage → compound interest → academic search → incomplete
percentage → general: each rule fires only when every earlier rule's
predicate is false, and whenever a rule's predicate holds and all earlier
ones fail, that rule's branch is selected. -/
theorem c5_classifica_ordem (m : String) :
    (regraImposto m = true → classifica m = .imposto) ∧
    (regraImposto m = false → regraPorcentagem m = true →
      classifica m = .porcentagem) ∧
    (regraImposto m = false → regraPorcentagem m = false → regraJuros m = true →
      classifica m = .jurosCompostos) ∧
    (regraImposto m = false → regraPorcentagem m = false → regraJuros m = false →
      regraBusca m = true → classifica m = .buscaCientifica) ∧
    (regraImposto m = false → regraPorcentagem m = false → regraJuros m = false →
      regraBusca m = false → regraIncompleta m = true →
      classifica m = .porcentagemIncompleta) ∧
    (regraImposto m = false → regraPorcentagem m = false → regraJuros m = false →
      regraBusca m = false → regraIncompleta m = false → classifica m = .geral) := by
  refine ⟨?_, ?_, ?_, ?_, ?_, ?_⟩ <;> intros <;> simp_all [classifica]

/-- Witness for C5 at a message matching both the tax rule ("imposto de
renda") and the percentage rule ("% de"): the earlier tax rule wins. -/
theorem c5_classifica_ordem_testemunha :
    regraImposto "qual o imposto de renda sobre 20% de 5000?" = true ∧
    regraPorcentagem "qual o imposto de renda sobre 20% de 5000?" = true ∧
    classifica "qual o imposto de renda sobre 20% de 5000?" = .imposto :=
  ⟨rfl, rfl, (c5_classifica_ordem "qual o imposto de renda sobre 20% de 5000?").1 rfl⟩

/-- C2: for every non-negative income strictly inside a 2024 bracket's range
the calculator returns the bracket's report with tax `max 0 (income*rate −
deduction)`, the effective-rate line appearing exactly when the tax is
positive and the exempt marker exactly when it is zero; income 50000 selects
the "15%" bracket with tax 2195.10, and income 28559.70 is exempt with tax
0. -/
theorem c2_imposto_renda_2024 (r : ℚ) (h0 : 0 ≤ r) :
    (r < 28559.70 → RelatorioFaixa r 0 0 "Isento" (imposto_renda_melhorado r 2024)) ∧
    (28559.70 < r → r < 42253.25 →
      RelatorioFaixa r 0.075 2141.98 "7,5%" (imposto_renda_melhorado r 2024)) ∧
    (42253.25 < r → r < 56717.56 →
      RelatorioFaixa r 0.15 5304.90 "15%" (imposto_renda_melhorado r 2024)) ∧
    (56717.56 < r → r < 74414.84 →
      RelatorioFaixa r 0.225 9756.12 "22,5%" (imposto_renda_melhorado r 2024)) ∧
    (74414.84 < r →
      RelatorioFaixa r 0.275 14067.51 "27,5%" (imposto_renda_melhorado r 2024)) ∧
    imposto_renda_melhorado 50000 2024 =
      .relatorio ⟨50000, "15%", 0.15, 5304.90, 2195.10, 47804.90, .aliquotaEfetiva 4.3902⟩ ∧
    imposto_renda_melhorado 28559.70 2024 =
      .relatorio ⟨28559.70, "Isento", 0, 0, 0, 28559.70, .isento⟩ := by
  have hnneg : ¬(r < 0) := not_lt.mpr h0
  refine ⟨?_, ?_, ?_, ?_, ?_, ?_, ?_⟩
  · intro h1
    simp only [RelatorioFaixa, imposto_renda_melhorado, if_neg hnneg, if_pos rfl]
    simp [calculaFaixa, faixas2024, dentroLimite, h1.le]
  · intro h1 h2
    simp only [RelatorioFaixa, imposto_renda_melhorado, if_neg hnneg, if_pos rfl]
    simp [calculaFaixa, faixas2024, dentroLimite, not_le.mpr h1, h2.le]
  · intro h1 h2
    simp only [RelatorioFaixa, imposto_renda_melhorado, if_neg hnneg, if_pos rfl]
    have g1 : ¬(r ≤ 28559.70) := by norm_num; linarith
    have g2 : ¬(r ≤ 42253.25) := not_le.mpr h1
    simp [calculaFaixa, faixas2024, dentroLimite, g1, g2, h2.le]
  · intro h1 h2
    simp only [RelatorioFaixa, imposto_renda_melhorado, if_neg hnneg, if_pos rfl]
    have g1 : ¬(r ≤ 28559.70) := by norm_num; linarith
    have g2 : ¬(r ≤ 42253.25) := by norm_num; linarith
    have g3 : ¬(r ≤ 56717.56) := not_le.mpr h1
    simp [calculaFaixa, faixas2024, dentroLimite, g1, g2, g3, h2.le]
  · intro h1
    simp only [RelatorioFaixa, imposto_renda_melhorado, if_neg hnneg, if_pos rfl]
    have g1 : ¬(r ≤ 28559.70) := by norm_num; linarith
    have g2 : ¬(r ≤ 42253.25) := by norm_num; linarith
    have g3 : ¬(r ≤ 56717.56) := by norm_num; linarith
    have g4 : ¬(r ≤ 74414.84) := not_le.mpr h1
    simp [calculaFaixa, faixas2024, dentroLimite, g1, g2, g3, g4]
  · norm_num [imposto_renda_melhorado, calculaFaixa, faixas2024, dentroLimite]
  · norm_num [imposto_renda_melhorado, calculaFaixa, faixas2024, dentroLimite]

/-- Witness for C2 at income 50000: the hypothesis `0 ≤ 50000` is discharged
and the "15%" bracket report with tax 2195.10 is obtained. -/
theorem c2_imposto_renda_2024_testemunha :
    (0 : ℚ) ≤ 50000 ∧
    imposto_renda_melhorado 50000 2024 =
      .relatorio ⟨50000, "15%", 0.15, 5304.90, 2195.10, 47804.90, .aliquotaEfetiva 4.3902⟩ :=
  ⟨by norm_num, (c2_imposto_renda_2024 50000 (by norm_num)).2.2.2.2.2.1⟩

/-- Any report the bracket loop produces carries a tax of the form
`max 0 _`, hence non-negative. -/
theorem calculaFaixa_imposto_nao_negativo (r : ℚ)
    (fs : List (Option ℚ × ℚ × ℚ × String)) (rel : IRRelatorio)
    (h : calculaFaixa r fs = .relatorio rel) : 0 ≤ rel.impostoDevido := by
  induction fs with
  | nil => simp [calculaFaixa] at h
  | cons f resto ih =>
    obtain ⟨limite, aliquota, deducao, nome⟩ := f
    by_cases hc : dentroLimite r limite = true
    · simp only [calculaFaixa, hc, if_true] at h
      obtain rfl := (IRSaida.relatorio.injEq _ _).mp h
      exact le_max_left 0 _
    · simp only [calculaFaixa, hc, if_false, Bool.false_eq_true] at h
      exact ih h

/-- C6: a strictly negative income is rejected with the explicit error
message (never an exception), and no produced report ever carries a negative
tax value. -/
theorem c6_renda_negativa_rejeitada :
    (∀ (r : ℚ) (ano : Int), r < 0 →
      imposto_renda_melhorado r ano = .erro "❌ Rendimento não pode ser negativo.") ∧
    (∀ (r : ℚ) (ano : Int) (rel : IRRelatorio),
      imposto_renda_melhorado r ano = .relatorio rel → 0 ≤ rel.impostoDevido) := by
  constructor
  · intro r ano h
    simp [imposto_renda_melhorado, h]
  · intro r ano rel h
    rw [imposto_renda_melhorado] at h
    split at h
    · simp at h
    · exact calculaFaixa_imposto_nao_negativo r _ rel h

/-- Witness for C6 at income −1000. -/
theorem c6_renda_negativa_testemunha :
    imposto_renda_melhorado (-1000) 2024 = .erro "❌ Rendimento não pode ser negativo." :=
  c6_renda_negativa_rejeitada.1 (-1000) 2024 (by norm_num)

/-- C7: the percentage calculator computes `value * (percentage/100)` when
both the base value and the percentage (defaulted to 0 when the key is
absent) are strictly positive, and returns the rejection message whenever
either is ≤ 0. -/
theorem c7_calculadora_porcentagem (kw : Valores) :
    (0 < kw.valor.getD 0 → 0 < kw.percentual.getD 0 →
      calculadora_financeira_geral "porcentagem" kw =
        .porcentagem (kw.valor.getD 0) (kw.percentual.getD 0)
          (kw.valor.getD 0 * (kw.percentual.getD 0 / 100))) ∧
    (kw.valor.getD 0 ≤ 0 ∨ kw.percentual.getD 0 ≤ 0 →
      calculadora_financeira_geral "porcentagem" kw =
        .erro "❌ Valores devem ser positivos para cálculo de porcentagem") := by
  have hp : paraMinusculas "porcentagem" = "porcentagem" := rfl
  constructor
  · intro h1 h2
    have hcond : ¬(kw.valor.getD 0 ≤ 0 ∨ kw.percentual.getD 0 ≤ 0) := by
      push_neg
      exact ⟨h1, h2⟩
    simp [calculadora_financeira_geral, hp, hcond]
  · intro h
    simp [calculadora_financeira_geral, hp, h]

/-- Witness for C7 at value 10000 and percentage 15: result 1500. -/
theorem c7_calculadora_porcentagem_testemunha :
    (0 : ℚ) < 10000 ∧ (0 : ℚ) < 15 ∧
    calculadora_financeira_geral "porcentagem" ⟨none, some 10000, none, some 15, none⟩ =
      .porcentagem 10000 15 1500 := by
  refine ⟨by norm_num, by norm_num, ?_⟩
  have h := (c7_calculadora_porcentagem ⟨none, some 10000, none, some 15, none⟩).1
    (by norm_num) (by norm_num)
  norm_num at h
  convert h using 2

/-- C8: the compound-interest calculator divides the supplied whole-number
rate by 100, requires principal, rate and period strictly positive (a
non-positive one yields the rejection message), and computes
`amount = principal * (1 + rate/100)^period` with interest `amount −
principal` and total gain `(amount/principal − 1) * 100`. -/
theorem c8_calculadora_juros_compostos (kw : Valores) :
    (0 < kw.principal.getD 0 → 0 < kw.taxa.getD 0 → 0 < kw.periodo.getD 0 →
      calculadora_financeira_geral "juros_compostos" kw =
        .jurosCompostos (kw.principal.getD 0) (kw.taxa.getD 0 / 100) (kw.periodo.getD 0)
          (kw.principal.getD 0 * (1 + kw.taxa.getD 0 / 100) ^ kw.periodo.getD 0)
          (kw.principal.getD 0 * (1 + kw.taxa.getD 0 / 100) ^ kw.periodo.getD 0 -
            kw.principal.getD 0)
          ((kw.principal.getD 0 * (1 + kw.taxa.getD 0 / 100) ^ kw.periodo.getD 0 /
            kw.principal.getD 0 - 1) * 100)) ∧
    (kw.principal.getD 0 ≤ 0 ∨ kw.taxa.getD 0 ≤ 0 ∨ kw.periodo.getD 0 = 0 →
      calculadora_financeira_geral "juros_compostos" kw =
        .erro "❌ Valores devem ser positivos para juros compostos") := by
  have hp : paraMinusculas "juros_compostos" = "juros_compostos" := rfl
  constructor
  · intro h1 h2 h3
    have hcond : ¬(kw.principal.getD 0 ≤ 0 ∨ kw.taxa.getD 0 / 100 ≤ 0 ∨
        kw.periodo.getD 0 = 0) := by
      push_neg
      exact ⟨h1, by positivity, Nat.pos_iff_ne_zero.mp h3⟩
    simp [calculadora_financeira_geral, hp, hcond]
  · intro h
    have hcond : kw.principal.getD 0 ≤ 0 ∨ kw.taxa.getD 0 / 100 ≤ 0 ∨
        kw.periodo.getD 0 = 0 := by
      rcases h with h | h | h
      · exact Or.inl h
      · exact Or.inr (Or.inl (by linarith))
      · exact Or.inr (Or.inr h)
    simp [calculadora_financeira_geral, hp, hcond]

/-- Witness for C8 at principal 10000, rate 10, period 5: amount 16105.10
(exactly, hence within 0.01) and interest 6105.10. -/
theorem c8_calculadora_juros_compostos_testemunha :
    (0 : ℚ) < 10000 ∧ (0 : ℚ) < 10 ∧ 0 < (5 : Nat) ∧
    calculadora_financeira_geral "juros_compostos" ⟨some 10000, none, some 10, none, some 5⟩ =
      .jurosCompostos 10000 (1/10) 5 16105.1 6105.1 61.051 ∧
    |(16105.1 : ℚ) - 16105.10| ≤ 0.01 := by
  refine ⟨by norm_num, by norm_num, by norm_num, ?_, by norm_num⟩
  have h := (c8_calculadora_juros_compostos ⟨some 10000, none, some 10, none, some 5⟩).1
    (by norm_num) (by norm_num) (by norm_num)
  norm_num at h
  convert h using 2 <;> norm_num

/-- C9: the simple-interest calculator has no positivity precondition: for
every input mapping it produces the report with
`interest = principal * (rate/100) * period` and
`amount = principal + interest`; at principal 10000, rate 10, period 5 the
interest is 5000 and the amount 15000. -/
theorem c9_calculadora_juros_simples (kw : Valores) :
    calculadora_financeira_geral "juros_simples" kw =
      .jurosSimples (kw.principal.getD 0) (kw.taxa.getD 0 / 100) (kw.periodo.getD 0)
        (kw.principal.getD 0 * (kw.taxa.getD 0 / 100) * (kw.periodo.getD 0 : ℚ))
        (kw.principal.getD 0 +
          kw.principal.getD 0 * (kw.taxa.getD 0 / 100) * (kw.periodo.getD 0 : ℚ)) ∧
    calculadora_financeira_geral "juros_simples" ⟨some 10000, none, some 10, none, some 5⟩ =
      .jurosSimples 10000 (1/10) 5 5000 15000 := by
  have hp : paraMinusculas "juros_simples" = "juros_simples" := rfl
  have geral : ∀ kv : Valores,
      calculadora_financeira_geral "juros_simples" kv =
        .jurosSimples (kv.principal.getD 0) (kv.taxa.getD 0 / 100) (kv.periodo.getD 0)
          (kv.principal.getD 0 * (kv.taxa.getD 0 / 100) * (kv.periodo.getD 0 : ℚ))
          (kv.principal.getD 0 +
            kv.principal.getD 0 * (kv.taxa.getD 0 / 100) * (kv.periodo.getD 0 : ℚ)) := by
    intro kv
    simp [calculadora_financeira_geral, hp]
  refine ⟨geral kw, ?_⟩
  rw [geral ⟨some 10000, none, some 10, none, some 5⟩]
  norm_num

/-- C10 counterexample: on "imposto de renda de 0" the extractor finds the
principal key with value 0 — a present field, distinct from an absent one —
yet the income-tax branch returns the clarifying prompt instead of
dispatching to the calculator, because `if valores.get('principal'):` tests
Python truthiness and `0.0` is falsy. -/
theorem c10_contraexemplo_zero_presente :
    extrair_valores_numericos "imposto de renda de 0" =
      Except.ok ⟨some 0, some 0, none, none, none⟩ ∧
    chatFallback "imposto de renda de 0" = .irPrompt := by
  have he : extrair_valores_numericos "imposto de renda de 0" =
      Except.ok ⟨some 0, some 0, none, none, none⟩ := rfl
  refine ⟨he, ?_⟩
  have hc : classifica "imposto de renda de 0" = .imposto := rfl
  rw [chatFallback, hc]
  simp [despacho, he, despachoIR, verdadeiro]

/-- C10 (amended): only the compound-interest branch tests field *presence*
(key membership), so there the clarifying prompt appears iff a required field
is absent and a present-but-zero field dispatches to the calculator (which
rejects it); the income-tax and percentage branches test *truthiness* of the
looked-up value, so there a field that is present with value zero produces
the clarifying prompt exactly as an absent field does. -/
theorem c10_despacho_campos (v : Valores) :
    (despachoJurosCompostos v = .jurosPrompt ↔
      (v.principal = none ∨ v.taxa = none ∨ v.periodo = none)) ∧
    (v.principal = some 0 → v.taxa.isSome = true → v.periodo.isSome = true →
      despachoJurosCompostos v =
        .calc (.erro "❌ Valores devem ser positivos para juros compostos")) ∧
    (despachoIR v = .irPrompt ↔ (v.principal = none ∨ v.principal = some 0)) ∧
    (despachoPorcentagem v = .porcentagemPrompt ↔
      (v.valor = none ∨ v.valor = some 0 ∨
        v.percentual = none ∨ v.percentual = some 0)) := by
  obtain ⟨p, vl, t, pc, per⟩ := v
  refine ⟨?_, ?_, ?_, ?_⟩
  · cases p <;> cases t <;> cases per <;>
      simp [despachoJurosCompostos]
  · intro hp ht hper
    obtain ⟨tv, rfl⟩ := Option.isSome_iff_exists.mp ht
    obtain ⟨nv, rfl⟩ := Option.isSome_iff_exists.mp hper
    simp only at hp
    subst hp
    have hp2 : paraMinusculas "juros_compostos" = "juros_compostos" := rfl
    simp [despachoJurosCompostos, calculadora_financeira_geral, hp2]
  · cases p with
    | none => simp [despachoIR, verdadeiro]
    | some q =>
      by_cases hq : q = 0 <;>
        simp [despachoIR, verdadeiro, hq, imposto_renda_melhorado]
  · cases vl with
    | none => simp [despachoPorcentagem, verdadeiro]
    | some q =>
      cases pc with
      | none => simp [despachoPorcentagem, verdadeiro]
      | some w =>
        by_cases hq : q = 0 <;> by_cases hw : w = 0 <;>
          simp [despachoPorcentagem, verdadeiro, hq, hw]

/-- Witness for C10 at a mapping whose fields are all present and zero (with
period 1): the income-tax branch prompts, while the compound-interest branch
dispatches and the calculator rejects. -/
theorem c10_despacho_campos_testemunha :
    despachoIR ⟨some 0, some 0, some 0, some 0, some 1⟩ = .irPrompt ∧
    despachoJurosCompostos ⟨some 0, some 0, some 0, some 0, some 1⟩ =
      .calc (.erro "❌ Valores devem ser positivos para juros compostos") :=
  ⟨(c10_despacho_campos ⟨some 0, some 0, some 0, some 0, some 1⟩).2.2.1.mpr (Or.inr rfl),
   (c10_despacho_campos ⟨some 0, some 0, some 0, some 0, some 1⟩).2.1 rfl rfl rfl⟩

end Agente
